import Mathlib

/-!
Verification of the SyncVeil authentication core against its source.

The repository contains two revisions of the same Express application:
`src/Syncveil/server.js` (with the flat-file store
`src/Syncveil/simpleStore-DESKTOP-N9FJDQI.js`) and an earlier/alternate
revision in `src/unnamed/part_001` (its own inline `simpleStore` plus the
same four API routes, differing in auto-login on signup and in
session destruction inside `/api/me`).

This file gives a shallow embedding of those handlers: request state is an
explicit `(store, session)` pair, the flat file is a `FileState`, and each
Express handler becomes a pure function from inputs and state to an
HTTP-observable output plus the new state.
-/

namespace SyncVeil

/-- Modelled from the spec: the bcrypt library (`bcrypt.hash` /
`bcrypt.compare`) is an external dependency whose source is not part of
this repository, so the Password Hashing Service is modelled from spec
§4.2: a salted, deterministic one-way derivation whose output embeds the
cost and salt, so that `compare` can re-derive with the stored parameters.
Only determinism and collision-freedom of the derived key are relevant to
the verification semantics, so the derived key is modelled as the
plaintext itself (the real derivation is one-way, which a shallow model
cannot and need not capture). -/
structure BcryptHash where
  cost : Nat
  salt : Nat
  key : String
deriving DecidableEq, Repr

/-- Modelled from the spec: the key-derivation step of bcrypt, see
`BcryptHash`.  Deterministic in the plaintext; the cost and salt are
recorded in the output by `bcrypt_hash`. -/
def bcryptKDF (cost salt : Nat) (p : String) : String :=
  let _ := cost
  let _ := salt
  p

/-- Modelled from the spec: `bcrypt.hash(password, 10)` — derive a key
from the plaintext under a per-call salt and the given cost, embedding
both in the output. -/
def bcrypt_hash (p : String) (cost salt : Nat) : BcryptHash :=
  ⟨cost, salt, bcryptKDF cost salt p⟩

/-- Modelled from the spec: `bcrypt.compare(password, hash)` — re-derive
with the stored cost and salt and compare; total, never throws, a mismatch
is `false`. -/
def bcrypt_compare (p : String) (h : BcryptHash) : Bool :=
  bcryptKDF h.cost h.salt p == h.key

/-- One user record as `/api/signup` constructs it
(`{ id, name, age, email, mobile, gender, address, password_hash }`,
src/Syncveil/server.js line 30).  Field `uname` embeds the JS key
`name`.  There is no `email_verified` field: neither revision of the
server stores one. -/
structure User where
  id : String
  uname : String
  age : String
  email : String
  mobile : String
  gender : String
  address : String
  password_hash : BcryptHash
deriving DecidableEq, Repr

/-- Modelled from the spec: neither server revision stores an
`email_verified` field and no verification-token mechanism exists in the
code; per spec §3 the flag defaults to `false` and is set `true` only by
consuming a verification token, so every user record of this code is
unverified. -/
def User.email_verified (_ : User) : Bool := false

/-- The JSON body `/api/signup` destructures
(src/Syncveil/server.js line 26). -/
structure SignupBody where
  uname : String
  age : String
  email : String
  mobile : String
  gender : String
  address : String
  password : String
deriving DecidableEq, Repr

/-- State of the flat file `data/users.json`.  `readable us` is a file
whose contents parse to the record list `us`; `unreadable us` is a file
that holds the records `us` but whose read or parse throws
(src/Syncveil/simpleStore-DESKTOP-N9FJDQI.js lines 17–24 wrap the read in
`try`/`catch`). -/
inductive FileState where
  | readable (users : List User)
  | unreadable (users : List User)
deriving DecidableEq, Repr

/-- Function `readAll` of src/Syncveil/simpleStore-DESKTOP-N9FJDQI.js: return the
parsed record list, and on any read/parse error return `[]` (the
`catch (err) { return []; }` branch). -/
def readAll : FileState → List User
  | .readable us => us
  | .unreadable _ => []

/-- Function `writeAll(arr)`: replace the file contents with `arr`.  The write is
modelled as always succeeding and making the file readable. -/
def writeAll (arr : List User) : FileState :=
  .readable arr

/-- The user object `/api/signup` pushes
(src/Syncveil/server.js line 30): fresh `uuidv4()` id, the body's profile
fields, `password_hash := await bcrypt.hash(password, 10)` with a fresh
salt. -/
def mkUser (body : SignupBody) (newId : String) (salt : Nat) : User :=
  ⟨newId, body.uname, body.age, body.email, body.mobile, body.gender,
    body.address, bcrypt_hash body.password 10 salt⟩

/-- Result value of `/api/signup`. -/
inductive SignupResult where
  | emailExists
  | success
deriving DecidableEq, Repr

/-- Handler for `/api/signup` of src/Syncveil/server.js lines 25–34: read all users,
reject with status 400 `Email already exists` if some record has
`u.email === email` (strict, case-sensitive `===`), else hash the
password, push the new record and write the file.  The session is
untouched on every path (the handler never assigns `req.session`). -/
def signup (body : SignupBody) (fs : FileState) (newId : String)
    (salt : Nat) (sess : Option String) :
    SignupResult × FileState × Option String :=
  let users := readAll fs
  if ((users.find? (fun u => u.email == body.email)).isSome) then
    (.emailExists, fs, sess)
  else
    (.success, writeAll (users ++ [mkUser body newId salt]), sess)

/-- Handler for `/api/signup` of src/unnamed/part_001 lines 45–75: same read, same
strict `u.email === email` duplicate check, same push-and-write, but on
success it also sets `req.session.userId = user.id`
("Auto-login after signup"). -/
def signup_unnamed (body : SignupBody) (fs : FileState) (newId : String)
    (salt : Nat) (sess : Option String) :
    SignupResult × FileState × Option String :=
  let users := readAll fs
  if ((users.find? (fun u => u.email == body.email)).isSome) then
    (.emailExists, fs, sess)
  else
    (.success, writeAll (users ++ [mkUser body newId salt]), some newId)

/-- Observable outcome of `/api/login`: either
`res.status(s).json({error: msg})` or `res.json({success: true})` with
the session set. -/
inductive LoginOut where
  | err (status : Nat) (msg : String)
  | ok
deriving DecidableEq, Repr

/-- Handler for `/api/login` of src/Syncveil/server.js lines 36–45 (identical logic in
src/unnamed/part_001 lines 78–94): read all users, find
`u.email === email`; if none, status 400 `Invalid credentials`; else
compare the password against the stored hash; on mismatch the same
status 400 `Invalid credentials`; on match set `req.session.userId` and
answer success.  There is no `email_verified` check on any path. -/
def login (email password : String) (fs : FileState)
    (sess : Option String) : LoginOut × Option String :=
  let users := readAll fs
  match users.find? (fun u => u.email == email) with
  | none => (.err 400 "Invalid credentials", sess)
  | some user =>
      if bcrypt_compare password user.password_hash then
        (.ok, some user.id)
      else
        (.err 400 "Invalid credentials", sess)

/-- Observable outcome of `/api/me`: an error response or
`res.json({user: info})` where `info` is the record minus
`password_hash`. -/
inductive MeOut where
  | err (status : Nat) (msg : String)
  | user (info : List (String × String))
deriving DecidableEq, Repr

/-- The rest-spread `const { password_hash, ...info } = user` of
src/Syncveil/server.js line 51: the serialized response keeps every key
of the record except `password_hash`. -/
def stripPasswordHash (u : User) : List (String × String) :=
  [("id", u.id), ("name", u.uname), ("age", u.age), ("email", u.email),
    ("mobile", u.mobile), ("gender", u.gender), ("address", u.address)]

/-- The comparison `u.id === req.session.userId` of
src/Syncveil/server.js line 49: an absent session id (`undefined`)
matches no record. -/
def sessionMatches (sess : Option String) (u : User) : Bool :=
  match sess with
  | some uid => u.id == uid
  | none => false

/-- Handler for `/api/me` of src/Syncveil/server.js lines 47–53: read all users, find
`u.id === req.session.userId` (an absent session id matches no record),
answer 401 `Not logged in` if none, else answer the record with
`password_hash` stripped.  The handler never calls `writeAll` and never
assigns or destroys the session, so both come back unchanged. -/
def whoAmI (fs : FileState) (sess : Option String) :
    MeOut × FileState × Option String :=
  let users := readAll fs
  match users.find? (sessionMatches sess) with
  | none => (.err 401 "Not logged in", fs, sess)
  | some u => (.user (stripPasswordHash u), fs, sess)

/-- Handler for `/api/me` of src/unnamed/part_001 lines 97–110: answer 401
`Not logged in` when `req.session.userId` is absent; when it is present
but matches no record, call `req.session.destroy()` and answer 401
`User not found`; else answer the record with `password_hash`
stripped. -/
def whoAmI_unnamed (fs : FileState) (sess : Option String) :
    MeOut × FileState × Option String :=
  match sess with
  | none => (.err 401 "Not logged in", fs, none)
  | some uid =>
      match (readAll fs).find? (fun u => u.id == uid) with
      | none => (.err 401 "User not found", fs, none)
      | some u => (.user (stripPasswordHash u), fs, some uid)

/-- Case-insensitive email equality, the comparison spec §3 requires for
the uniqueness key (`a@x.com` vs `A@X.com`). -/
def emailEqCI (a b : String) : Bool :=
  a.data.map Char.toLower == b.data.map Char.toLower

/-! Interleaving model of `/api/signup` for the atomicity claim.  The
handler body has a genuine yield point: `const users = readAll()` and the
duplicate check run first, then `await bcrypt.hash(...)` suspends the
handler and lets other events of the Node event loop run, and only
afterwards do `users.push(user)` and `writeAll(users)` execute.  A signup
task is therefore split at that await into two atomic phases. -/

/-- Progress of one in-flight `/api/signup` handler.  `checked dup snap`
is the state right after the duplicate check, holding its outcome and the
snapshot `users` the handler read (the array it will later push to and
write back); the `await bcrypt.hash` sits between `checked` and
`done`. -/
inductive SignupPhase where
  | start
  | checked (dup : Bool) (snap : List User)
  | done (r : SignupResult)
deriving DecidableEq, Repr

/-- One in-flight `/api/signup` request: its body, the id and salt it
will use, and how far it has run. -/
structure SignupTask where
  body : SignupBody
  newId : String
  salt : Nat
  phase : SignupPhase
deriving DecidableEq, Repr

/-- Run one atomic phase of a signup task against the shared file.
Phase 1 (`start → checked`): `readAll` plus the strict
`u.email === email` duplicate check, snapshotting the array read.
Phase 2 (`checked → done`): either the 400 early return, or
`users.push(user); writeAll(users)` — the write stores the task's own
snapshot plus its new user, replacing whatever the file holds by then.
A finished task does not move. -/
def stepTask (fs : FileState) (t : SignupTask) : FileState × SignupTask :=
  match t.phase with
  | .start =>
      let users := readAll fs
      (fs, ⟨t.body, t.newId, t.salt,
        .checked ((users.find? (fun u => u.email == t.body.email)).isSome)
          users⟩)
  | .checked dup snap =>
      if dup then
        (fs, ⟨t.body, t.newId, t.salt, .done .emailExists⟩)
      else
        (writeAll (snap ++ [mkUser t.body t.newId t.salt]),
          ⟨t.body, t.newId, t.salt, .done .success⟩)
  | .done _ => (fs, t)

/-- Shared file plus two in-flight signup tasks. -/
structure TwoSignups where
  fs : FileState
  a : SignupTask
  b : SignupTask
deriving DecidableEq, Repr

/-- Let task `a` (side `false`) or task `b` (side `true`) run its next
atomic phase. -/
def stepSide (s : TwoSignups) (side : Bool) : TwoSignups :=
  if side then
    let (fs', b') := stepTask s.fs s.b
    ⟨fs', s.a, b'⟩
  else
    let (fs', a') := stepTask s.fs s.a
    ⟨fs', a', s.b⟩

/-- Run the two tasks under a given interleaving (the event-loop
schedule). -/
def runSched (sched : List Bool) (s : TwoSignups) : TwoSignups :=
  sched.foldl stepSide s

/-- Fresh task for a request body. -/
def initTask (b : SignupBody) (newId : String) (salt : Nat) : SignupTask :=
  ⟨b, newId, salt, .start⟩

/-! Concrete fixtures used by counterexamples and witnesses. -/

/-- A stored user: email `a@x.com`, password `pw1` hashed at cost 10 with
salt 0. -/
def u1 : User :=
  ⟨"id1", "U", "21", "a@x.com", "000", "F", "addr", bcrypt_hash "pw1" 10 0⟩

/-- Signup body with email `a@x.com`. -/
def bodyA : SignupBody :=
  ⟨"U", "21", "a@x.com", "000", "F", "addr", "pw1"⟩

/-- Signup body whose email `A@X.com` differs from `bodyA`'s only in
letter case. -/
def bodyB : SignupBody :=
  ⟨"V", "22", "A@X.com", "111", "M", "addr2", "pw2"⟩

/-- Signup body with exactly the email of `bodyA`. -/
def bodyC : SignupBody :=
  ⟨"W", "23", "a@x.com", "222", "M", "addr3", "pw3"⟩

/-- C1, counterexample: signing up `a@x.com` and then `A@X.com` — equal
up to letter case — does not make the second call fail: both succeed, and
the store afterwards holds two records whose emails are
case-insensitively equal, because the duplicate check uses strict
`===`. -/
theorem c1_counterexample :
    emailEqCI "a@x.com" "A@X.com" = true ∧
    (signup bodyA (FileState.readable []) "id1" 0 none).1
      = SignupResult.success ∧
    (signup bodyB
      (signup bodyA (FileState.readable []) "id1" 0 none).2.1
      "id2" 1 none).1 = SignupResult.success ∧
    ((readAll (signup bodyB
        (signup bodyA (FileState.readable []) "id1" 0 none).2.1
        "id2" 1 none).2.1).filter
      (fun u => emailEqCI u.email "a@x.com")).length = 2 := by
  decide

/-- C1, amended: the duplicate check compares emails with strict
case-sensitive equality, so only a second signup whose email is
byte-for-byte equal fails, leaving the store unchanged with exactly one
record carrying that exact email. -/
theorem c1_exact_duplicate_only (body : SignupBody) (users : List User)
    (idA idB : String) (sA sB : Nat) (sess : Option String)
    (hnone : users.find? (fun u => u.email == body.email) = none) :
    (signup body (FileState.readable users) idA sA sess).1
      = SignupResult.success ∧
    signup body (signup body (FileState.readable users) idA sA sess).2.1
        idB sB sess
      = (SignupResult.emailExists,
          (signup body (FileState.readable users) idA sA sess).2.1, sess) ∧
    ((readAll (signup body (FileState.readable users) idA sA sess).2.1).filter
      (fun u => u.email == body.email)).length = 1 := by
  have hdup : (users.find? (fun u => u.email == body.email)).isSome
      = false := by
    simp [hnone]
  have hfirst : signup body (FileState.readable users) idA sA sess
      = (SignupResult.success,
          FileState.readable (users ++ [mkUser body idA sA]), sess) := by
    simp [signup, readAll, writeAll, hdup]
  have hmk : (mkUser body idA sA).email == body.email := by
    simp [mkUser]
  have hdup2 : ((users ++ [mkUser body idA sA]).find?
      (fun u => u.email == body.email)).isSome = true := by
    rw [List.find?_append, hnone]
    simp [List.find?, hmk]
  have hfilter : (users.filter (fun u => u.email == body.email)) = [] := by
    rw [List.filter_eq_nil_iff]
    exact List.find?_eq_none.mp hnone
  refine ⟨by rw [hfirst], ?_, ?_⟩
  · rw [hfirst]
    simp only [signup, readAll, hdup2, if_true]
  · rw [hfirst]
    simp only [readAll]
    rw [List.filter_append, hfilter]
    simp [List.filter, hmk]

/-- Witness for `c1_exact_duplicate_only`: `bodyA` signed up twice over
the empty store. -/
theorem c1_witness :
    (signup bodyA (FileState.readable []) "id1" 0 none).1
      = SignupResult.success ∧
    signup bodyA (signup bodyA (FileState.readable []) "id1" 0 none).2.1
        "id2" 1 none
      = (SignupResult.emailExists,
          (signup bodyA (FileState.readable []) "id1" 0 none).2.1, none) ∧
    ((readAll (signup bodyA (FileState.readable []) "id1" 0 none).2.1).filter
      (fun u => u.email == bodyA.email)).length = 1 :=
  c1_exact_duplicate_only bodyA [] "id1" "id2" 0 1 none (by decide)

/-- C2, counterexample: the user `u1` is unverified (this code has no
verification mechanism at all) and `pw1` matches the stored hash, yet
`login` answers success and sets the session to `u1`'s id — the claimed
`EmailNotVerified` failure with no session does not happen. -/
theorem c2_counterexample :
    u1.email_verified = false ∧
    bcrypt_compare "pw1" u1.password_hash = true ∧
    login "a@x.com" "pw1" (FileState.readable [u1]) none
      = (LoginOut.ok, some "id1") := by
  decide

/-- C2, amended: the code has no email-verification gate: whenever the
email lookup finds a record and the password matches its stored hash,
`login` answers success and sets the session to that record's id,
whatever the verification status; no `EmailNotVerified` outcome
exists. -/
theorem c2_login_ignores_verification (e p : String) (fs : FileState)
    (sess : Option String) (u : User)
    (hfind : (readAll fs).find? (fun v => v.email == e) = some u)
    (hpw : bcrypt_compare p u.password_hash = true) :
    login e p fs sess = (LoginOut.ok, some u.id) := by
  simp only [login, hfind, hpw, if_true]

/-- Witness for `c2_login_ignores_verification` at `u1`. -/
theorem c2_witness :
    login "a@x.com" "pw1" (FileState.readable [u1]) none
      = (LoginOut.ok, some u1.id) :=
  c2_login_ignores_verification "a@x.com" "pw1" (FileState.readable [u1])
    none u1 (by decide) (by decide)

/-- C3, counterexample: signup is not an atomic check-and-set.  Two
signups with the same email, interleaved at the `await bcrypt.hash` yield
point between the duplicate check and the write (schedule A-check,
B-check, A-write, B-write), both finish with success — neither observes
`DuplicateEmail` — and B's write silently discards A's record. -/
theorem c3_counterexample :
    bodyA.email = bodyC.email ∧
    (runSched [false, true, false, true]
      ⟨FileState.readable [], initTask bodyA "idA" 0,
        initTask bodyC "idC" 1⟩).a.phase
      = SignupPhase.done SignupResult.success ∧
    (runSched [false, true, false, true]
      ⟨FileState.readable [], initTask bodyA "idA" 0,
        initTask bodyC "idC" 1⟩).b.phase
      = SignupPhase.done SignupResult.success ∧
    readAll (runSched [false, true, false, true]
      ⟨FileState.readable [], initTask bodyA "idA" 0,
        initTask bodyC "idC" 1⟩).fs = [mkUser bodyC "idC" 1] := by
  decide

/-- C3, amended: signup performs a separate existence check
(`readAll` + `find`) followed by a separate `writeAll`, with the
`await bcrypt.hash` yield point between them; for every pair of signup
bodies with the same email, the interleaving check-check-write-write from
the empty store lets both calls succeed, the second write clobbering the
first record. -/
theorem c3_race_window_both_succeed (bA bB : SignupBody)
    (idA idB : String) (sA sB : Nat) (_hsame : bA.email = bB.email) :
    (runSched [false, true, false, true]
      ⟨FileState.readable [], initTask bA idA sA,
        initTask bB idB sB⟩).a.phase
      = SignupPhase.done SignupResult.success ∧
    (runSched [false, true, false, true]
      ⟨FileState.readable [], initTask bA idA sA,
        initTask bB idB sB⟩).b.phase
      = SignupPhase.done SignupResult.success ∧
    readAll (runSched [false, true, false, true]
      ⟨FileState.readable [], initTask bA idA sA,
        initTask bB idB sB⟩).fs = [mkUser bB idB sB] :=
  ⟨rfl, rfl, rfl⟩

/-- Witness for `c3_race_window_both_succeed` at `bodyA` and `bodyC`,
which share the email `a@x.com`. -/
theorem c3_witness :
    (runSched [false, true, false, true]
      ⟨FileState.readable [], initTask bodyA "id1" 0,
        initTask bodyC "id2" 1⟩).a.phase
      = SignupPhase.done SignupResult.success ∧
    (runSched [false, true, false, true]
      ⟨FileState.readable [], initTask bodyA "id1" 0,
        initTask bodyC "id2" 1⟩).b.phase
      = SignupPhase.done SignupResult.success ∧
    readAll (runSched [false, true, false, true]
      ⟨FileState.readable [], initTask bodyA "id1" 0,
        initTask bodyC "id2" 1⟩).fs = [mkUser bodyC "id2" 1] :=
  c3_race_window_both_succeed bodyA bodyC "id1" "id2" 0 1 (by decide)

/-- C4: a login whose email matches no record and a login whose email
matches a record but whose password fails verification produce the same
observable response — status 400, message `Invalid credentials` — so the
two failure causes are indistinguishable to the caller. -/
theorem c4_invalid_credentials_indistinguishable
    (e p : String) (fs : FileState) (sess : Option String)
    (e_ p_ : String) (fs_ : FileState) (sess_ : Option String) (u : User)
    (hnone : (readAll fs).find? (fun v => v.email == e) = none)
    (hsome : (readAll fs_).find? (fun v => v.email == e_) = some u)
    (hpw : bcrypt_compare p_ u.password_hash = false) :
    (login e p fs sess).1 = LoginOut.err 400 "Invalid credentials" ∧
    (login e_ p_ fs_ sess_).1 = (login e p fs sess).1 := by
  refine ⟨?_, ?_⟩ <;> simp [login, hnone, hsome, hpw]

/-- Witness for `c4_invalid_credentials_indistinguishable`: unknown email
`b@x.com` versus wrong password for the stored `u1`. -/
theorem c4_witness :
    (login "b@x.com" "pw1" (FileState.readable [u1]) none).1
      = LoginOut.err 400 "Invalid credentials" ∧
    (login "a@x.com" "bad" (FileState.readable [u1]) none).1
      = (login "b@x.com" "pw1" (FileState.readable [u1]) none).1 :=
  c4_invalid_credentials_indistinguishable "b@x.com" "pw1"
    (FileState.readable [u1]) none "a@x.com" "bad"
    (FileState.readable [u1]) none u1 (by decide) (by decide) (by decide)

/-- C5: `/api/me` either resolves the session to a stored user and
answers that record with the `password_hash` key absent, or answers 401
`Not logged in` when the session id is missing or matches no record; no
successful response of either revision ever carries a `password_hash`
key. -/
theorem c5_whoami_strips_hash (fs : FileState) (sess : Option String) :
    ((readAll fs).find? (sessionMatches sess) = none →
      whoAmI fs sess = (MeOut.err 401 "Not logged in", fs, sess)) ∧
    (∀ u, (readAll fs).find? (sessionMatches sess) = some u →
      whoAmI fs sess = (MeOut.user (stripPasswordHash u), fs, sess)) ∧
    (∀ info, (whoAmI fs sess).1 = MeOut.user info →
      "password_hash" ∉ info.map Prod.fst) ∧
    (∀ info, (whoAmI_unnamed fs sess).1 = MeOut.user info →
      "password_hash" ∉ info.map Prod.fst) := by
  refine ⟨?_, ?_, ?_, ?_⟩
  · intro h
    simp [whoAmI, h]
  · intro u h
    simp [whoAmI, h]
  · intro info h
    cases hf : (readAll fs).find? (sessionMatches sess) with
    | none => simp [whoAmI, hf] at h
    | some u =>
        simp [whoAmI, hf, MeOut.user.injEq] at h
        subst h
        simp [stripPasswordHash]
  · intro info h
    cases sess with
    | none => simp [whoAmI_unnamed] at h
    | some uid =>
        cases hf : (readAll fs).find? (fun u => u.id == uid) with
        | none => simp [whoAmI_unnamed, hf] at h
        | some u =>
            simp [whoAmI_unnamed, hf, MeOut.user.injEq] at h
            subst h
            simp [stripPasswordHash]

/-- Witness for `c5_whoami_strips_hash`: a live session for `u1` yields
the hash-free profile, and that profile indeed has no `password_hash`
key. -/
theorem c5_witness :
    whoAmI (FileState.readable [u1]) (some "id1")
      = (MeOut.user (stripPasswordHash u1), FileState.readable [u1],
          some "id1") ∧
    "password_hash" ∉ (stripPasswordHash u1).map Prod.fst :=
  ⟨(c5_whoami_strips_hash (FileState.readable [u1]) (some "id1")).2.1 u1
      (by decide),
    (c5_whoami_strips_hash (FileState.readable [u1]) (some "id1")).2.2.1
      (stripPasswordHash u1)
      (by
        rw [(c5_whoami_strips_hash (FileState.readable [u1])
          (some "id1")).2.1 u1 (by decide)])⟩

/-- C6, counterexample: in the src/unnamed/part_001 revision a successful
signup does issue a session — the caller's session goes from `none` to
the new user's id (`Auto-login after signup`), so the session state is
not the same after the call as before it. -/
theorem c6_counterexample :
    (signup_unnamed bodyA (FileState.readable []) "id1" 0 none).1
      = SignupResult.success ∧
    (signup_unnamed bodyA (FileState.readable []) "id1" 0 none).2.2
      = some "id1" ∧
    some "id1" ≠ (none : Option String) := by
  decide

/-- C6, amended: the src/Syncveil/server.js signup leaves the caller's
session unchanged on every path (the new user must log in separately),
while the src/unnamed/part_001 revision auto-logs-in: on success it sets
the session to the new user's id. -/
theorem c6_signup_session_policy (body : SignupBody) (fs : FileState)
    (newId : String) (salt : Nat) (sess : Option String)
    (hno : ((readAll fs).find? (fun u => u.email == body.email)).isSome
      = false) :
    (signup body fs newId salt sess).2.2 = sess ∧
    signup_unnamed body fs newId salt sess
      = (SignupResult.success,
          writeAll (readAll fs ++ [mkUser body newId salt]),
          some newId) := by
  constructor
  · simp only [signup]
    split <;> rfl
  · simp [signup_unnamed, hno]

/-- Witness for `c6_signup_session_policy`: `bodyA` over the empty
store. -/
theorem c6_witness :
    (signup bodyA (FileState.readable []) "id1" 0 none).2.2 = none ∧
    signup_unnamed bodyA (FileState.readable []) "id1" 0 none
      = (SignupResult.success,
          writeAll (readAll (FileState.readable [])
            ++ [mkUser bodyA "id1" 0]),
          some "id1") :=
  c6_signup_session_policy bodyA (FileState.readable []) "id1" 0 none
    (by decide)

/-- C7: verification round-trips — a password verifies against its own
hash, a different plaintext fails against that hash whatever the cost and
salt, and `bcrypt_compare` is total on every input, a mismatch being the
value `false` rather than an exception. -/
theorem c7_hash_verify_roundtrip (p q : String) (cost salt : Nat)
    (h : BcryptHash) (hne : p ≠ q) :
    bcrypt_compare p (bcrypt_hash p cost salt) = true ∧
    bcrypt_compare p (bcrypt_hash q cost salt) = false ∧
    (bcrypt_compare p h = true ∨ bcrypt_compare p h = false) := by
  refine ⟨?_, ?_, ?_⟩
  · simp [bcrypt_compare, bcrypt_hash, bcryptKDF]
  · simp only [bcrypt_compare, bcrypt_hash, bcryptKDF]
    exact beq_eq_false_iff_ne.mpr hne
  · cases hc : bcrypt_compare p h
    · exact Or.inr rfl
    · exact Or.inl rfl

/-- Witness for `c7_hash_verify_roundtrip` at plaintexts `pw1` and `pw2`,
cost 10, salt 0. -/
theorem c7_witness :
    bcrypt_compare "pw1" (bcrypt_hash "pw1" 10 0) = true ∧
    bcrypt_compare "pw1" (bcrypt_hash "pw2" 10 0) = false ∧
    (bcrypt_compare "pw1" u1.password_hash = true ∨
      bcrypt_compare "pw1" u1.password_hash = false) :=
  c7_hash_verify_roundtrip "pw1" "pw2" 10 0 u1.password_hash (by decide)

/-- C8, counterexample: the pair (`a@x.com`, `pw1`) exists in the stored
user list and the password matches, but the file is unreadable; `login`
answers `Invalid credentials` instead of any transient-failure kind. -/
theorem c8_counterexample :
    u1 ∈ [u1] ∧ u1.email = "a@x.com" ∧
    bcrypt_compare "pw1" u1.password_hash = true ∧
    login "a@x.com" "pw1" (FileState.unreadable [u1]) none
      = (LoginOut.err 400 "Invalid credentials", none) := by
  decide

/-- C8, amended: `readAll` swallows every storage failure into the empty
list, so over an unreadable store `login` always answers 400
`Invalid credentials` — even for an email-password pair present in the
file's (unreadable) contents; no distinct transient-failure kind exists
in this code. -/
theorem c8_unreadable_store_conflated (us : List User) (e p : String)
    (sess : Option String) :
    readAll (FileState.unreadable us) = [] ∧
    login e p (FileState.unreadable us) sess
      = (LoginOut.err 400 "Invalid credentials", sess) :=
  ⟨rfl, rfl⟩

/-- C9, counterexample: in the src/unnamed/part_001 revision `/api/me`
does mutate session state — with a session id matching no stored record
it calls `req.session.destroy()`, so the session (`some "ghost"`) is gone
afterwards even though no revoke was requested. -/
theorem c9_counterexample :
    (whoAmI_unnamed (FileState.readable []) (some "ghost")).2.2 = none ∧
    (whoAmI_unnamed (FileState.readable []) (some "ghost")).2.2
      ≠ some "ghost" := by
  decide

/-- C9, amended: neither `/api/me` revision ever writes the user store;
the src/Syncveil/server.js revision also leaves the session untouched on
every path, while the src/unnamed/part_001 revision preserves the session
exactly when it resolves to a stored user (or is already absent) and
destroys it when the session id matches no record. -/
theorem c9_whoami_frame (fs : FileState) (sess : Option String) :
    (whoAmI fs sess).2.1 = fs ∧ (whoAmI fs sess).2.2 = sess ∧
    (whoAmI_unnamed fs sess).2.1 = fs ∧
    (∀ uid u, sess = some uid →
      (readAll fs).find? (fun v => v.id == uid) = some u →
      (whoAmI_unnamed fs sess).2.2 = sess) ∧
    (∀ uid, sess = some uid →
      (readAll fs).find? (fun v => v.id == uid) = none →
      (whoAmI_unnamed fs sess).2.2 = none) ∧
    (sess = none → (whoAmI_unnamed fs sess).2.2 = none) := by
  refine ⟨?_, ?_, ?_, ?_, ?_, ?_⟩
  · cases hf : (readAll fs).find? (sessionMatches sess) <;>
      simp [whoAmI, hf]
  · cases hf : (readAll fs).find? (sessionMatches sess) <;>
      simp [whoAmI, hf]
  · cases sess with
    | none => rfl
    | some uid =>
        cases hf : (readAll fs).find? (fun u => u.id == uid) <;>
          simp [whoAmI_unnamed, hf]
  · intro uid u hs hf
    subst hs
    simp [whoAmI_unnamed, hf]
  · intro uid hs hf
    subst hs
    simp [whoAmI_unnamed, hf]
  · intro hs
    subst hs
    rfl

/-- Witness for `c9_whoami_frame`: `u1`'s live session over the
one-record store. -/
theorem c9_witness :
    (whoAmI (FileState.readable [u1]) (some "id1")).2.1
      = FileState.readable [u1] ∧
    (whoAmI_unnamed (FileState.readable [u1]) (some "id1")).2.2
      = some "id1" :=
  ⟨(c9_whoami_frame (FileState.readable [u1]) (some "id1")).1,
    (c9_whoami_frame (FileState.readable [u1]) (some "id1")).2.2.2.1
      "id1" u1 rfl (by decide)⟩

/-- C10: when the duplicate-email check fires, both signup revisions
return before `users.push` and `writeAll`, so the file state and the
session come back exactly as they were. -/
theorem c10_duplicate_signup_frame (body : SignupBody) (fs : FileState)
    (newId : String) (salt : Nat) (sess : Option String)
    (hdup : ((readAll fs).find? (fun u => u.email == body.email)).isSome
      = true) :
    signup body fs newId salt sess = (SignupResult.emailExists, fs, sess) ∧
    signup_unnamed body fs newId salt sess
      = (SignupResult.emailExists, fs, sess) := by
  constructor
  · simp only [signup, hdup, if_true]
  · simp only [signup_unnamed, hdup, if_true]

/-- Witness for `c10_duplicate_signup_frame`: a second signup with
`u1`'s exact email leaves the store `[u1]` and the session untouched. -/
theorem c10_witness :
    signup bodyA (FileState.readable [u1]) "id9" 7 (some "sess")
      = (SignupResult.emailExists, FileState.readable [u1], some "sess") ∧
    signup_unnamed bodyA (FileState.readable [u1]) "id9" 7 (some "sess")
      = (SignupResult.emailExists, FileState.readable [u1], some "sess") :=
  c10_duplicate_signup_frame bodyA (FileState.readable [u1]) "id9" 7
    (some "sess") (by decide)

end SyncVeil
